import Mathlib

/-!
# Verification of the Voice-Note-Recorder core (shallow embedding)

This file embeds the recorder core of the repository
(`voice_note_recorder/audio.py` and `voice_note_recorder/config.py`)
into Lean 4 and proves the specified properties about it.

Modelling conventions:
* Python `int` becomes `Int`/`Nat`; sample values become `Int`.
* numpy float arithmetic in the level meter is idealised over `ℝ`
  (the spec itself states the formula over real numbers).
* An audio chunk (`np.ndarray` delivered by the stream callback)
  becomes `List Int`.
* Mutation with exceptions becomes explicit state passing: a method
  that can raise returns the error (or result) together with the
  recorder as it stands when the method exits, so "leaves state
  unchanged on failure" is statable.
* The `sounddevice` / `soundfile` / filesystem boundary is a
  parameter: `start` takes the outcome of opening the input stream,
  `save` takes the outcome the file write would have.
-/

namespace VoiceNoteRecorder

/-! ## config.py -/

/-- `QualityPreset` (config.py): the three preset identifiers. -/
inductive QualityPreset where
  | STANDARD
  | EXTENDED
  | MAXIMUM
deriving DecidableEq, Repr

/-- `QualitySettings` (config.py): audio settings for a quality preset.
Fields are exactly the dataclass fields; note that the dataclass
declares **no** `subtype` attribute. -/
structure QualitySettings where
  name : String
  sample_rate : Nat
  mp3_bitrate : Nat
  description : String
  max_duration_str : String
  sample_width : Nat := 2
  dtype : String := "int16"
deriving DecidableEq, Repr

/-- `QualitySettings.bytes_per_second_mp3` (config.py):
`(self.mp3_bitrate * 1000) // 8`. -/
def QualitySettings.bytes_per_second_mp3 (q : QualitySettings) : Nat :=
  (q.mp3_bitrate * 1000) / 8

/-- `GEMINI_MAX_FILE_SIZE_MB = 20` (config.py). -/
def GEMINI_MAX_FILE_SIZE_MB : Nat := 20

/-- `QualitySettings.max_duration_seconds` (config.py):
`(GEMINI_MAX_FILE_SIZE_MB * 1024 * 1024) // self.bytes_per_second_mp3`. -/
def QualitySettings.max_duration_seconds (q : QualitySettings) : Nat :=
  (GEMINI_MAX_FILE_SIZE_MB * 1024 * 1024) / q.bytes_per_second_mp3

/-- `CHANNELS = 1` (config.py). -/
def CHANNELS : Nat := 1

/-- Python attribute lookup `quality.subtype` as performed by
`AudioRecorder.save` (audio.py line 249).  The `QualitySettings`
dataclass in config.py defines no field, property or method named
`subtype`, so the lookup fails for every instance: in Python this
raises `AttributeError`.  We model the lookup as returning `none`. -/
def QualitySettings.subtypeAttr (_ : QualitySettings) : Option String :=
  none

/-- `QUALITY_PRESETS` (config.py), as preset → settings. -/
def QUALITY_PRESETS : QualityPreset → QualitySettings
  | .STANDARD =>
      { name := "Standard"
        sample_rate := 16000
        mp3_bitrate := 64
        description := "Best clarity for voice. Native format for Gemini/Whisper."
        max_duration_str := "~43 minutes" }
  | .EXTENDED =>
      { name := "Extended"
        sample_rate := 16000
        mp3_bitrate := 32
        description := "Good quality for longer recordings. Still very clear."
        max_duration_str := "~85 minutes" }
  | .MAXIMUM =>
      { name := "Maximum Duration"
        sample_rate := 8000
        mp3_bitrate := 24
        description := "Telephone quality. Use for very long voice notes."
        max_duration_str := "~110 minutes" }

/-- `DEFAULT_QUALITY_PRESET = QualityPreset.EXTENDED` (config.py). -/
def DEFAULT_QUALITY_PRESET : QualityPreset := .EXTENDED

/-- `get_quality_settings` (config.py). -/
def get_quality_settings
    (preset : QualityPreset := DEFAULT_QUALITY_PRESET) : QualitySettings :=
  QUALITY_PRESETS preset

/-! ## audio.py : data model -/

/-- `RecordingState` (audio.py): the four states of the recorder. -/
inductive RecordingState where
  | IDLE
  | RECORDING
  | PAUSED
  | STOPPED
deriving DecidableEq, Repr

/-- `AudioDevice` (audio.py): one input device as returned by
`list_devices`. -/
structure AudioDevice where
  index : Nat
  name : String
  channels : Nat
  sample_rate : Rat
  is_default : Bool := false
deriving DecidableEq, Repr

/-- One entry of `sd.query_devices()`: the fields `list_devices`
reads from each PortAudio device record. -/
structure RawDevice where
  name : String
  max_input_channels : Nat
  default_samplerate : Rat
deriving DecidableEq, Repr

/-- An audio chunk: the sample data of one `indata` ndarray delivered
to the stream callback (mono, so a flat sequence of samples). -/
abbrev Chunk := List Int

/-- The live input stream, with the parameters `start` passes to
`sd.InputStream`.  `blocksize = int(sample_rate * 0.1)` (100 ms). -/
structure Stream where
  samplerate : Nat
  channels : Nat
  dtype : String
  device : Option Int
  blocksize : Nat
deriving DecidableEq, Repr

/-- The instance data of `AudioRecorder` (audio.py `__init__`).
`has_level_callback` records whether a `level_callback` was supplied;
the callback itself is modelled by returning the published value.
The recording thread is represented by the serialized draining of
`audio_queue` (see `recording_loop_step`). -/
structure Recorder where
  state : RecordingState
  audio_queue : List Chunk
  recorded_frames : List Chunk
  stream : Option Stream
  has_level_callback : Bool
  device_index : Option Int
  quality : QualitySettings
deriving DecidableEq, Repr

/-- `AudioRecorder.__init__`. -/
def Recorder.init (has_level_callback : Bool)
    (quality_settings : Option QualitySettings) : Recorder :=
  { state := .IDLE
    audio_queue := []
    recorded_frames := []
    stream := none
    has_level_callback := has_level_callback
    device_index := none
    quality := quality_settings.getD (get_quality_settings) }

/-- Errors the recorder raises (`RuntimeError` messages in audio.py)
plus the failure modes of the external boundary. -/
inductive RecError where
  | cannotChangeQuality   -- "Cannot change quality while recording"
  | notStopped            -- "Cannot save: recording not stopped"
  | emptyBuffer           -- "Cannot save: no audio recorded"
  | attributeError        -- AttributeError: no attribute named subtype
  | ioError               -- I/O failure propagated from sf.write
  | deviceUnavailable     -- sd.InputStream open failure
deriving DecidableEq, Repr

/-- A `pathlib.Path` destination, reduced to the parts `save` touches:
the final suffix (extension, with its dot; `""` when absent) and
everything before it.  `with_suffix(s)` replaces the suffix. -/
structure PyPath where
  stem : String
  suffix : String
deriving DecidableEq, Repr

/-- `Path.with_suffix` as used in `save`: replaces the extension. -/
def PyPath.withSuffix (p : PyPath) (s : String) : PyPath :=
  { p with suffix := s }

/-! ## audio.py : level meter (`_audio_callback`, level branch)

The callback computes, over the delivered chunk as float data,
`rms = sqrt(mean(centered**2))`, normalised by the maximum
magnitude of the bit depth, then `db = 20 * log10(rms / max_val)` with a
`-100` floor when `rms > 0` fails.  numpy float arithmetic is
idealised over `ℚ`/`ℝ`. -/

/-- Mean of squares of the chunk, with the 8-bit re-centering
(`indata - 128`) applied when `sample_width == 1`; 16-bit data is
squared directly.  (`np.mean` of an empty array is NaN; in `ℚ` the
empty case yields `0/0 = 0`, and both make the `rms > 0` test fail,
so the published value agrees.) -/
def meanSq (width : Nat) (samples : Chunk) : Rat :=
  if width = 1 then
    ((samples.map fun s => ((s : Rat) - 128) ^ 2).sum) / samples.length
  else
    ((samples.map fun s => ((s : Rat)) ^ 2).sum) / samples.length

/-- The root-mean-square amplitude of a chunk. -/
noncomputable def rmsOf (width : Nat) (samples : Chunk) : ℝ :=
  Real.sqrt ((meanSq width samples : Rat) : ℝ)

/-- The normalisation constant: `128` for 8-bit data, `32768`
otherwise (16-bit). -/
def max_val (width : Nat) : Nat :=
  if width = 1 then 128 else 32768

/-- The dB value the level branch publishes:
`20 * np.log10(rms / max_val)` when `rms > 0`, else `-100`. -/
noncomputable def levelDb (width : Nat) (samples : Chunk) : ℝ :=
  if 0 < rmsOf width samples then
    20 * Real.logb 10 (rmsOf width samples / max_val width)
  else
    -100

/-! ## audio.py : callback, recording loop and operations -/

/-- The state effect of `_audio_callback`: after the level branch,
the chunk is copied into the queue exactly when the state is
RECORDING.  (The level publication is pure observation and is
modelled separately by `published_level`.) -/
def audio_callback (r : Recorder) (indata : Chunk) : Recorder :=
  if r.state = .RECORDING then
    { r with audio_queue := r.audio_queue ++ [indata] }
  else
    r

/-- The value `_audio_callback` passes to the level callback for a
delivered chunk: computed whenever a callback is registered, before
and independently of the RECORDING test. -/
noncomputable def published_level (r : Recorder) (indata : Chunk) : Option ℝ :=
  if r.has_level_callback then
    some (levelDb r.quality.sample_width indata)
  else
    none

/-- One iteration of `_recording_loop`: while the state is RECORDING
or PAUSED the thread pops the next queued chunk and appends it to
`_recorded_frames` only if the state is (still) RECORDING; a chunk
popped while PAUSED is dropped.  Outside those states the loop has
exited and the queue is untouched. -/
def recording_loop_step (r : Recorder) : Recorder :=
  if r.state = .RECORDING ∨ r.state = .PAUSED then
    match r.audio_queue with
    | [] => r
    | data :: rest =>
        if r.state = .RECORDING then
          { r with audio_queue := rest,
                   recorded_frames := r.recorded_frames ++ [data] }
        else
          { r with audio_queue := rest }
  else
    r

/-- Serialized delivery of one chunk (spec §9: callback invocations
are strictly ordered and non-overlapping): the callback runs, then
the recording loop processes the queue head it may have added. -/
def deliver (r : Recorder) (indata : Chunk) : Recorder :=
  recording_loop_step (audio_callback r indata)

/-- `set_quality`: raises unless IDLE, else replaces the settings. -/
def set_quality (r : Recorder) (q : QualitySettings) :
    Except RecError Unit × Recorder :=
  if r.state ≠ .IDLE then
    (.error .cannotChangeQuality, r)
  else
    (.ok (), { r with quality := q })

/-- `set_device`: stores the device index unconditionally. -/
def set_device (r : Recorder) (device_index : Option Int) : Recorder :=
  { r with device_index := device_index }

/-- The enumerate/filter/append loop of `list_devices`, carrying the
running `enumerate` index `i`.  `default_device` is
`sd.default.device[0]`: the default input device index, or a
negative value when the subsystem reports no default. -/
def list_devices_aux (i : Nat) (devs : List RawDevice)
    (default_device : Int) : List AudioDevice :=
  match devs with
  | [] => []
  | dev :: rest =>
      if 0 < dev.max_input_channels then
        { index := i
          name := dev.name
          channels := dev.max_input_channels
          sample_rate := dev.default_samplerate
          is_default := decide ((i : Int) = default_device) }
          :: list_devices_aux (i + 1) rest default_device
      else
        list_devices_aux (i + 1) rest default_device

/-- `AudioRecorder.list_devices`, over the device records the host
subsystem reports and its reported default input index. -/
def list_devices (devs : List RawDevice) (default_device : Int) :
    List AudioDevice :=
  list_devices_aux 0 devs default_device

/-- `start`: returns silently unless IDLE; otherwise empties the
frame list, moves to RECORDING, drains the queue, then opens the
input stream at the active quality sample rate, mono, 100 ms
blocks (`int(sample_rate * 0.1)`).  `openOk` is the outcome of the
`sd.InputStream` open: on failure the exception propagates after
the state was already set to RECORDING, with `_stream` unassigned. -/
def start (r : Recorder) (openOk : Bool) :
    Except RecError Unit × Recorder :=
  if r.state ≠ .IDLE then
    (.ok (), r)
  else
    let r1 := { r with recorded_frames := [],
                       state := RecordingState.RECORDING,
                       audio_queue := [] }
    let s : Stream :=
      { samplerate := r.quality.sample_rate
        channels := CHANNELS
        dtype := r.quality.dtype
        device := r.device_index
        blocksize := r.quality.sample_rate / 10 }
    if openOk then
      (.ok (), { r1 with stream := some s })
    else
      (.error .deviceUnavailable, r1)

/-- `pause`: RECORDING → PAUSED, no-op otherwise; the stream stays
open. -/
def pause (r : Recorder) : Recorder :=
  if r.state = .RECORDING then { r with state := .PAUSED } else r

/-- `resume`: PAUSED → RECORDING, no-op otherwise. -/
def resume (r : Recorder) : Recorder :=
  if r.state = .PAUSED then { r with state := .RECORDING } else r

/-- `stop`: from RECORDING or PAUSED, moves to STOPPED, stops and
closes any open stream (leaving `_stream = None`), and joins the
recording thread; no-op otherwise. -/
def stop (r : Recorder) : Recorder :=
  if r.state = .RECORDING ∨ r.state = .PAUSED then
    { r with state := .STOPPED, stream := none }
  else
    r

/-- `clear`: `stop()`, then discard the frames and go to IDLE. -/
def clear (r : Recorder) : Recorder :=
  let r1 := stop r
  { r1 with recorded_frames := [], state := .IDLE }

/-- `get_duration`: `0.0` on an empty frame list, else total sample
count over the active sample rate. -/
def get_duration (r : Recorder) : Rat :=
  if r.recorded_frames = [] then 0
  else ((r.recorded_frames.map List.length).sum : Rat) / r.quality.sample_rate

/-- `save`: raises unless STOPPED; raises on an empty frame list;
concatenates the frames, normalises the destination suffix to
`".wav"`, then evaluates the arguments of `sf.write` — which looks
up `self._quality.subtype`, an attribute `QualitySettings` does not
define, raising `AttributeError`.  Were the lookup to succeed,
`writeOk` is the outcome of the `sf.write` call, and on success the
frames are discarded and the state returns to IDLE.  The recorder
returned alongside the result is the object as the method exits. -/
def save (r : Recorder) (filepath : PyPath) (writeOk : Bool) :
    Except RecError (PyPath × List Int) × Recorder :=
  if r.state ≠ .STOPPED then
    (.error .notStopped, r)
  else if r.recorded_frames = [] then
    (.error .emptyBuffer, r)
  else
    let audio_data := r.recorded_frames.flatten
    let fp := filepath.withSuffix ".wav"
    match r.quality.subtypeAttr with
    | none => (.error .attributeError, r)
    | some _ =>
        if writeOk then
          (.ok (fp, audio_data),
           { r with recorded_frames := [], state := .IDLE })
        else
          (.error .ioError, r)

/-! ## Reachable recorder states -/

/-- The recorder states the program can actually be in: the freshly
constructed recorder, closed under every operation, the stream
callback and the recording loop. -/
inductive Reachable : Recorder → Prop where
  | init (hlc : Bool) (q : Option QualitySettings) :
      Reachable (Recorder.init hlc q)
  | set_quality {r} (q : QualitySettings) :
      Reachable r → Reachable (set_quality r q).2
  | set_device {r} (d : Option Int) :
      Reachable r → Reachable (set_device r d)
  | start {r} (openOk : Bool) :
      Reachable r → Reachable (start r openOk).2
  | pause {r} : Reachable r → Reachable (pause r)
  | resume {r} : Reachable r → Reachable (resume r)
  | stop {r} : Reachable r → Reachable (stop r)
  | clear {r} : Reachable r → Reachable (clear r)
  | save {r} (fp : PyPath) (writeOk : Bool) :
      Reachable r → Reachable (save r fp writeOk).2
  | callback {r} (c : Chunk) :
      Reachable r → Reachable (audio_callback r c)
  | loop {r} : Reachable r → Reachable (recording_loop_step r)

/-! ## Concrete example inputs (used by the witness theorems) -/

/-- A freshly constructed recorder with a level callback and the
default (EXTENDED) quality settings. -/
def rInit : Recorder := Recorder.init true none

/-- A recorder in the middle of a recording. -/
def rRec : Recorder := { rInit with state := .RECORDING }

/-- A stopped recorder holding one captured chunk. -/
def rStoppedFull : Recorder :=
  { rInit with state := .STOPPED, recorded_frames := [[1, 2, 3]] }

/-- A stopped recorder whose buffer is empty. -/
def rStoppedEmpty : Recorder := { rInit with state := .STOPPED }

/-- An example destination path with a non-wav suffix. -/
def fpEx : PyPath := { stem := "voice_note_20250101_120000", suffix := ".ogg" }

/-- An example device table: one stereo input, one output-only
endpoint, one mono input. -/
def devsEx : List RawDevice :=
  [ { name := "Mic", max_input_channels := 2, default_samplerate := 44100 },
    { name := "Monitor", max_input_channels := 0, default_samplerate := 48000 },
    { name := "Webcam", max_input_channels := 1, default_samplerate := 16000 } ]

/-! ## Theorems -/

/-- Claim C5: in every state, `get_duration` returns the total number
of buffered samples divided by the active sample rate, and exactly 0
when the buffer is empty.  (`get_duration` never inspects the state,
so quantifying over all recorders covers all states.) -/
theorem C5_get_duration_total_samples_over_rate (r : Recorder) :
    get_duration r =
      ((r.recorded_frames.map List.length).sum : Rat) / r.quality.sample_rate ∧
    (r.recorded_frames = [] → get_duration r = 0) := by
  constructor
  · unfold get_duration
    by_cases h : r.recorded_frames = []
    · simp [h]
    · simp [h]
  · intro h
    simp [get_duration, h]

/-- Witness for C5 at a concrete recorder with an empty buffer. -/
theorem C5_witness : get_duration rInit = 0 :=
  (C5_get_duration_total_samples_over_rate rInit).2 rfl

/-- Claim C6: `start` from any state other than IDLE is a silent
no-op — no error, and the recorder (state, buffer, stream, all
fields) is returned unchanged, whatever the stream-open outcome
would have been. -/
theorem C6_start_noop_when_not_idle (r : Recorder) (openOk : Bool)
    (h : r.state ≠ .IDLE) :
    start r openOk = (.ok (), r) := by
  unfold start
  rw [if_pos h]

/-- Witness for C6 at a recorder that is RECORDING. -/
theorem C6_witness : start rRec true = (.ok (), rRec) :=
  C6_start_noop_when_not_idle rRec true (by decide)

/-- Claim C8: for every quality preset, the derived maximum duration
is `floor(20 * 1024 * 1024 / floor(mp3_bitrate * 1000 / 8))`, and it
never exceeds what fits in the 20 MiB cap. -/
theorem C8_max_duration_exact_floor (p : QualityPreset) :
    (QUALITY_PRESETS p).max_duration_seconds =
      (20 * 1024 * 1024) / (((QUALITY_PRESETS p).mp3_bitrate * 1000) / 8) ∧
    (QUALITY_PRESETS p).max_duration_seconds *
      (QUALITY_PRESETS p).bytes_per_second_mp3 ≤ 20 * 1024 * 1024 := by
  cases p <;> exact ⟨by decide, by decide⟩

/-- Witness for C8 at the STANDARD preset: 2621 seconds of 64 kbps
audio fit in 20 MiB. -/
theorem C8_witness :
    (QUALITY_PRESETS .STANDARD).max_duration_seconds =
      (20 * 1024 * 1024) /
        (((QUALITY_PRESETS .STANDARD).mp3_bitrate * 1000) / 8) ∧
    (QUALITY_PRESETS .STANDARD).max_duration_seconds *
      (QUALITY_PRESETS .STANDARD).bytes_per_second_mp3 ≤ 20 * 1024 * 1024 :=
  C8_max_duration_exact_floor .STANDARD

/-- Claim C1 (code bug): `save` from STOPPED with a non-empty buffer
cannot succeed.  At a concrete stopped recorder holding one chunk,
with the write destined to succeed, `save` raises `AttributeError`
while evaluating `self._quality.subtype` (audio.py line 249): the
`QualitySettings` dataclass defines no `subtype` attribute.  The
recorder is left untouched, contradicting the claim (and the save
docstring, which promises a written WAV file). -/
theorem C1_save_always_raises_attribute_error :
    save rStoppedFull fpEx true = (.error .attributeError, rStoppedFull) := by
  rfl

/-- Claim C2: whenever `save` fails — wrong state, empty buffer, or
any later failure — the recorder (state and buffer included) is
exactly as it was before the call. -/
theorem C2_save_failure_leaves_recorder_unchanged
    (r : Recorder) (fp : PyPath) (writeOk : Bool) (e : RecError)
    (h : (save r fp writeOk).1 = .error e) :
    (save r fp writeOk).2 = r := by
  by_cases h1 : r.state = .STOPPED
  · by_cases h2 : r.recorded_frames = []
    · simp [save, h1, h2]
    · simp [save, h1, h2, QualitySettings.subtypeAttr]
  · simp [save, h1]

/-- Witness for C2: a failing `save` call on a concrete recorder. -/
theorem C2_witness :
    (save rStoppedEmpty fpEx true).1 = .error .emptyBuffer ∧
    (save rStoppedEmpty fpEx true).2 = rStoppedEmpty :=
  ⟨by rfl,
   C2_save_failure_leaves_recorder_unchanged rStoppedEmpty fpEx true
     .emptyBuffer (by rfl)⟩

/-- Claim C10: `save` in STOPPED with an empty buffer raises the
empty-buffer error and stays in STOPPED; every other operation keeps
the session out of IDLE (a second `save` fails identically) except
`clear`, which is the only way back to IDLE. -/
theorem C10_stopped_empty_buffer_only_clear_reaches_idle
    (r : Recorder) (fp fp2 : PyPath) (w w2 openOk : Bool)
    (q : QualitySettings) (di : Option Int) (c : Chunk)
    (hs : r.state = .STOPPED) (hb : r.recorded_frames = []) :
    save r fp w = (.error .emptyBuffer, r) ∧
    save (save r fp w).2 fp2 w2 = (.error .emptyBuffer, (save r fp w).2) ∧
    start r openOk = (.ok (), r) ∧
    pause r = r ∧
    resume r = r ∧
    stop r = r ∧
    set_quality r q = (.error .cannotChangeQuality, r) ∧
    (set_device r di).state = .STOPPED ∧
    (audio_callback r c).state = .STOPPED ∧
    (recording_loop_step r).state = .STOPPED ∧
    (clear r).state = .IDLE := by
  have hsave : save r fp w = (.error .emptyBuffer, r) := by
    simp [save, hs, hb]
  refine ⟨hsave, ?_, ?_, ?_, ?_, ?_, ?_, ?_, ?_, ?_, ?_⟩
  · rw [hsave]
    simp [save, hs, hb]
  · unfold start
    rw [if_pos (by simp [hs])]
  · simp [pause, hs]
  · simp [resume, hs]
  · simp [stop, hs]
  · simp [set_quality, hs]
  · simp [set_device, hs]
  · simp [audio_callback, hs]
  · simp [recording_loop_step, hs]
  · simp [clear]

/-- Witness for C10 at a concrete stopped, empty recorder. -/
theorem C10_witness :
    save rStoppedEmpty fpEx true = (.error .emptyBuffer, rStoppedEmpty) ∧
    save (save rStoppedEmpty fpEx true).2 fpEx true =
      (.error .emptyBuffer, (save rStoppedEmpty fpEx true).2) ∧
    start rStoppedEmpty true = (.ok (), rStoppedEmpty) ∧
    pause rStoppedEmpty = rStoppedEmpty ∧
    resume rStoppedEmpty = rStoppedEmpty ∧
    stop rStoppedEmpty = rStoppedEmpty ∧
    set_quality rStoppedEmpty (QUALITY_PRESETS .STANDARD) =
      (.error .cannotChangeQuality, rStoppedEmpty) ∧
    (set_device rStoppedEmpty (some 3)).state = .STOPPED ∧
    (audio_callback rStoppedEmpty [7]).state = .STOPPED ∧
    (recording_loop_step rStoppedEmpty).state = .STOPPED ∧
    (clear rStoppedEmpty).state = .IDLE :=
  C10_stopped_empty_buffer_only_clear_reaches_idle rStoppedEmpty fpEx fpEx
    true true true (QUALITY_PRESETS .STANDARD) (some 3) [7] rfl rfl

/-- Claim C3: for every delivered chunk, a level value is computed
and passed to the registered level callback regardless of the
state, and (under the serialized delivery of `deliver`, starting
from a drained queue) a copy of the chunk ends up appended to the
capture buffer if and only if the state is RECORDING. -/
theorem C3_level_always_buffer_iff_recording
    (r : Recorder) (c : Chunk)
    (hq : r.audio_queue = []) (hcb : r.has_level_callback = true) :
    published_level r c = some (levelDb r.quality.sample_width c) ∧
    ((deliver r c).recorded_frames = r.recorded_frames ++ [c] ↔
      r.state = .RECORDING) ∧
    (r.state ≠ .RECORDING →
      (deliver r c).recorded_frames = r.recorded_frames) := by
  refine ⟨by simp [published_level, hcb], ?_, ?_⟩
  · cases hst : r.state <;>
      simp [deliver, audio_callback, recording_loop_step, hq, hst]
  · intro hns
    cases hst : r.state <;>
      simp [deliver, audio_callback, recording_loop_step, hq, hst] <;>
      exact absurd hst hns

/-- Witness for C3 at a recording recorder and a one-sample chunk. -/
theorem C3_witness :
    published_level rRec [5] = some (levelDb rRec.quality.sample_width [5]) ∧
    ((deliver rRec [5]).recorded_frames = rRec.recorded_frames ++ [[5]] ↔
      rRec.state = .RECORDING) ∧
    (rRec.state ≠ .RECORDING →
      (deliver rRec [5]).recorded_frames = rRec.recorded_frames) :=
  C3_level_always_buffer_iff_recording rRec [5] rfl rfl

/-- Claim C4: the level meter maps a chunk of zero RMS to exactly
-100 dB and any other chunk to `20 * log10(rms / max_val)`, where
the normalisation constant is 128 for 8-bit data (re-centered in
`meanSq` by subtracting 128) and 32768 for 16-bit data. -/
theorem C4_level_db_formula (width : Nat) (samples : Chunk) :
    (rmsOf width samples = 0 → levelDb width samples = -100) ∧
    (rmsOf width samples ≠ 0 →
      levelDb width samples =
        20 * Real.logb 10 (rmsOf width samples / max_val width)) ∧
    max_val 1 = 128 ∧ max_val 2 = 32768 := by
  have h0 : 0 ≤ rmsOf width samples := Real.sqrt_nonneg _
  refine ⟨?_, ?_, rfl, rfl⟩
  · intro h
    unfold levelDb
    rw [if_neg]
    rw [h]
    exact lt_irrefl 0
  · intro h
    have hpos : 0 < rmsOf width samples := lt_of_le_of_ne h0 (Ne.symm h)
    unfold levelDb
    rw [if_pos hpos]

/-- Witness for C4: the all-zero 16-bit chunk has zero RMS and is
reported at exactly -100 dB. -/
theorem C4_witness : rmsOf 2 [0, 0] = 0 ∧ levelDb 2 [0, 0] = -100 := by
  have hm : meanSq 2 ([0, 0] : Chunk) = 0 := by
    simp [meanSq]
  have hr : rmsOf 2 [0, 0] = 0 := by
    unfold rmsOf
    rw [hm]
    simp
  exact ⟨hr, (C4_level_db_formula 2 [0, 0]).1 hr⟩

/-- The stream invariant: an open stream implies the state is
RECORDING or PAUSED. -/
def StreamInv (r : Recorder) : Prop :=
  r.stream.isSome = true → r.state = .RECORDING ∨ r.state = .PAUSED

theorem streamInv_init (hlc : Bool) (q : Option QualitySettings) :
    StreamInv (Recorder.init hlc q) := by
  simp [StreamInv, Recorder.init]

theorem streamInv_set_quality {r : Recorder} (q : QualitySettings)
    (ih : StreamInv r) : StreamInv (set_quality r q).2 := by
  unfold StreamInv at ih ⊢
  unfold set_quality
  by_cases hc : r.state ≠ .IDLE
  · simpa [hc] using ih
  · simpa [hc] using ih

theorem streamInv_set_device {r : Recorder} (d : Option Int)
    (ih : StreamInv r) : StreamInv (set_device r d) := by
  simpa [StreamInv, set_device] using ih

theorem streamInv_start {r : Recorder} (openOk : Bool)
    (ih : StreamInv r) : StreamInv (start r openOk).2 := by
  unfold StreamInv at ih ⊢
  unfold start
  by_cases hc : r.state ≠ .IDLE
  · simpa [hc] using ih
  · cases openOk <;> simp [hc]

theorem streamInv_pause {r : Recorder} (ih : StreamInv r) :
    StreamInv (pause r) := by
  unfold StreamInv at ih ⊢
  unfold pause
  by_cases hc : r.state = .RECORDING
  · simp [hc]
  · simpa [hc] using ih

theorem streamInv_resume {r : Recorder} (ih : StreamInv r) :
    StreamInv (resume r) := by
  unfold StreamInv at ih ⊢
  unfold resume
  by_cases hc : r.state = .PAUSED
  · simp [hc]
  · simpa [hc] using ih

theorem streamInv_stop {r : Recorder} (ih : StreamInv r) :
    StreamInv (stop r) := by
  unfold StreamInv at ih ⊢
  unfold stop
  by_cases hc : r.state = .RECORDING ∨ r.state = .PAUSED
  · simp [hc]
  · simpa [hc] using ih

theorem streamInv_clear {r : Recorder} (ih : StreamInv r) :
    StreamInv (clear r) := by
  unfold StreamInv at ih ⊢
  unfold clear stop
  by_cases hc : r.state = .RECORDING ∨ r.state = .PAUSED
  · simp [hc]
  · simp only [if_neg hc]
    intro hs
    exact absurd (ih hs) hc

theorem streamInv_save {r : Recorder} (fp : PyPath) (writeOk : Bool)
    (ih : StreamInv r) : StreamInv (save r fp writeOk).2 := by
  unfold StreamInv at ih ⊢
  unfold save
  by_cases h1 : r.state = .STOPPED
  · by_cases h2 : r.recorded_frames = []
    · simpa [h1, h2] using ih
    · simpa [h1, h2, QualitySettings.subtypeAttr] using ih
  · simpa [h1] using ih

theorem streamInv_callback {r : Recorder} (c : Chunk)
    (ih : StreamInv r) : StreamInv (audio_callback r c) := by
  unfold StreamInv at ih ⊢
  unfold audio_callback
  by_cases hc : r.state = .RECORDING
  · simpa [hc] using ih
  · simpa [hc] using ih

theorem streamInv_loop {r : Recorder} (ih : StreamInv r) :
    StreamInv (recording_loop_step r) := by
  unfold StreamInv at ih ⊢
  unfold recording_loop_step
  by_cases hc : r.state = .RECORDING ∨ r.state = .PAUSED
  · rw [if_pos hc]
    cases hq : r.audio_queue with
    | nil => exact ih
    | cons d rest =>
        by_cases hrec : r.state = .RECORDING
        · simpa [hrec] using ih
        · simpa [hrec] using ih
  · rw [if_neg hc]
    exact ih

/-- Invariant of reachable recorders: an open stream implies the
state is RECORDING or PAUSED.  Only `start` opens a stream — after
moving to RECORDING — and `stop` closes it on every exit from those
states. -/
theorem reachable_stream_open_implies_live {r : Recorder}
    (h : Reachable r) :
    r.stream.isSome = true → r.state = .RECORDING ∨ r.state = .PAUSED := by
  have : StreamInv r := by
    induction h with
    | init hlc q => exact streamInv_init hlc q
    | set_quality q hr ih => exact streamInv_set_quality q ih
    | set_device d hr ih => exact streamInv_set_device d ih
    | start openOk hr ih => exact streamInv_start openOk ih
    | pause hr ih => exact streamInv_pause ih
    | resume hr ih => exact streamInv_resume ih
    | stop hr ih => exact streamInv_stop ih
    | clear hr ih => exact streamInv_clear ih
    | save fp writeOk hr ih => exact streamInv_save fp writeOk ih
    | callback c hr ih => exact streamInv_callback c ih
    | loop hr ih => exact streamInv_loop ih
  exact this

/-- Claim C7: `clear` is legal from every reachable recorder state:
afterwards the stream is closed, the buffer is empty, the duration
reads 0, and the state is IDLE. -/
theorem C7_clear_closes_empties_idles (r : Recorder) (h : Reachable r) :
    (clear r).stream = none ∧ (clear r).recorded_frames = [] ∧
    (clear r).state = .IDLE ∧ get_duration (clear r) = 0 := by
  refine ⟨?_, by simp [clear], by simp [clear], by simp [get_duration, clear]⟩
  unfold clear stop
  by_cases hg : r.state = .RECORDING ∨ r.state = .PAUSED
  · simp [hg]
  · simp only [if_neg hg]
    cases hsr : r.stream with
    | none => rfl
    | some s =>
        exact absurd (reachable_stream_open_implies_live h (by simp [hsr])) hg

/-- Witness for C7 at the freshly constructed recorder. -/
theorem C7_witness :
    (clear (Recorder.init true none)).stream = none ∧
    (clear (Recorder.init true none)).recorded_frames = [] ∧
    (clear (Recorder.init true none)).state = .IDLE ∧
    get_duration (clear (Recorder.init true none)) = 0 :=
  C7_clear_closes_empties_idles (Recorder.init true none)
    (Reachable.init true none)

/-- Every entry produced by the device loop carries an enumeration
index at least the start index, and its default flag is exactly the
comparison of that index with the reported default index. -/
theorem list_devices_aux_mem {dflt : Int} :
    ∀ {i : Nat} {devs : List RawDevice} {d : AudioDevice},
      d ∈ list_devices_aux i devs dflt →
      i ≤ d.index ∧ d.is_default = decide ((d.index : Int) = dflt) := by
  intro i devs
  induction devs generalizing i with
  | nil =>
      intro d hd
      simp [list_devices_aux] at hd
  | cons dev rest ih =>
      intro d hd
      unfold list_devices_aux at hd
      by_cases hc : 0 < dev.max_input_channels
      · rw [if_pos hc] at hd
        rcases List.mem_cons.mp hd with h | h
        · subst h
          simp
        · rcases ih h with ⟨h1, h2⟩
          exact ⟨Nat.le_of_succ_le h1, h2⟩
      · rw [if_neg hc] at hd
        rcases ih hd with ⟨h1, h2⟩
        exact ⟨Nat.le_of_succ_le h1, h2⟩

/-- The device loop is exactly enumerate-filter-map over the raw
device table. -/
theorem list_devices_aux_eq (dflt : Int) :
    ∀ (i : Nat) (devs : List RawDevice),
      list_devices_aux i devs dflt =
        ((devs.enumFrom i).filter fun p =>
            decide (0 < p.2.max_input_channels)).map fun p =>
          { index := p.1
            name := p.2.name
            channels := p.2.max_input_channels
            sample_rate := p.2.default_samplerate
            is_default := decide ((p.1 : Int) = dflt) } := by
  intro i devs
  induction devs generalizing i with
  | nil => rfl
  | cons dev rest ih =>
      unfold list_devices_aux
      by_cases hc : 0 < dev.max_input_channels
      · rw [if_pos hc, List.enumFrom_cons,
          List.filter_cons_of_pos (by simpa using hc), List.map_cons, ih]
      · rw [if_neg hc, List.enumFrom_cons,
          List.filter_cons_of_neg (by simpa using hc), ih]

/-- With no reported default (a negative index), no produced entry
carries the default flag. -/
theorem list_devices_aux_no_default {i : Nat} {devs : List RawDevice}
    {dflt : Int} (hd : dflt < 0) {d : AudioDevice}
    (h : d ∈ list_devices_aux i devs dflt) : d.is_default = false := by
  rcases list_devices_aux_mem h with ⟨-, h2⟩
  rw [h2, decide_eq_false_iff_not]
  intro h3
  omega

/-- When the reported default index points at position `j` of the
table (offset against the running index `i`) and that device has an
input channel, the flagged entries are exactly the one with
enumeration index `i + j`. -/
theorem list_devices_aux_default_unique {dflt : Int} :
    ∀ (devs : List RawDevice) (i j : Nat) (hj : j < devs.length),
      ((i + j : Nat) : Int) = dflt →
      0 < (devs.get ⟨j, hj⟩).max_input_channels →
      (((list_devices_aux i devs dflt).filter fun d => d.is_default).map
          fun d => d.index) = [i + j] := by
  intro devs
  induction devs with
  | nil =>
      intro i j hj
      simp at hj
  | cons dev rest ih =>
      intro i j hj hdf hch
      unfold list_devices_aux
      cases j with
      | zero =>
          have hdev : 0 < dev.max_input_channels := by simpa using hch
          have hdi : ((i : Nat) : Int) = dflt := by simpa using hdf
          rw [if_pos hdev]
          rw [List.filter_cons_of_pos (by simpa using hdi)]
          have hnil :
              (list_devices_aux (i + 1) rest dflt).filter
                (fun d => d.is_default) = [] := by
            rw [List.filter_eq_nil_iff]
            intro d hd
            rcases list_devices_aux_mem hd with ⟨h1, h2⟩
            rw [h2]
            simp only [decide_eq_true_eq]
            intro h3
            omega
          rw [hnil]
          simp
      | succ j' =>
          have hne : ¬ (decide ((i : Int) = dflt) = true) := by
            simp only [decide_eq_true_eq]
            intro h3
            omega
          have hj' : j' < rest.length := Nat.lt_of_succ_lt_succ hj
          have hch' : 0 < (rest.get ⟨j', hj'⟩).max_input_channels := by
            simpa [List.get_cons_succ] using hch
          have hdf' : ((i + 1 + j' : Nat) : Int) = dflt := by
            push_cast at hdf ⊢
            omega
          have hres := ih (i + 1) j' hj' hdf' hch'
          by_cases hc : 0 < dev.max_input_channels
          · rw [if_pos hc, List.filter_cons_of_neg (by simpa using hne), hres]
            congr 1
            omega
          · rw [if_neg hc, hres]
            congr 1
            omega

/-- Claim C9: `list_devices` returns exactly the endpoints with at
least one input channel, as enumerate-filter-map over the raw table
(index, name, channel count, default sample rate, default flag); no
entry is flagged when the subsystem reports no default (negative
index), and when the reported default index is an input-capable
position, exactly one entry — that index — is flagged. -/
theorem C9_list_devices_exact (devs : List RawDevice) (dflt : Int) :
    (list_devices devs dflt =
      ((devs.enumFrom 0).filter fun p =>
          decide (0 < p.2.max_input_channels)).map fun p =>
        { index := p.1
          name := p.2.name
          channels := p.2.max_input_channels
          sample_rate := p.2.default_samplerate
          is_default := decide ((p.1 : Int) = dflt) }) ∧
    (dflt < 0 → ∀ d ∈ list_devices devs dflt, d.is_default = false) ∧
    (∀ (j : Nat) (hj : j < devs.length), (j : Int) = dflt →
      0 < (devs.get ⟨j, hj⟩).max_input_channels →
      (((list_devices devs dflt).filter fun d => d.is_default).map
          fun d => d.index) = [j]) := by
  refine ⟨list_devices_aux_eq dflt 0 devs,
    fun hd d hm => list_devices_aux_no_default hd hm, ?_⟩
  intro j hj hdf hch
  have h := list_devices_aux_default_unique devs 0 j hj (by simpa using hdf) hch
  simpa using h

/-- Witness for C9 on a concrete device table: with the default
index pointing at the mono input, exactly that entry is flagged;
with no reported default, nothing is flagged. -/
theorem C9_witness :
    (((list_devices devsEx 2).filter fun d => d.is_default).map
        fun d => d.index) = [2] ∧
    (∀ d ∈ list_devices devsEx (-1), d.is_default = false) := by
  constructor
  · exact (C9_list_devices_exact devsEx 2).2.2 2 (by decide) (by decide)
      (by decide)
  · exact fun d hd => (C9_list_devices_exact devsEx (-1)).2.1 (by decide) d hd

end VoiceNoteRecorder
